import Mathlib

/-!
# TaskFlow — shallow embedding of the multi-tenant task-management server

This file embeds, in Lean 4, the server-side core of the TaskFlow
repository (Express routes + Mongoose models):

* data model: `src/server/models/Organization.js` (Organization, User,
  Invitation schemas) and the Task schema;
* expiration sweep: `checkExpiredTasks` in
  `src/server/services/taskService.js`;
* task routes: `src/server/routes/tasks.js` (GET /:id, PUT /:id,
  PATCH /:id/status, DELETE /:id, GET /statistics);
* organization member routes (GET /members, PATCH /members/:userId/role);
* invitation issuance (POST / in the invitations router);
* registration (POST /register in `src/server/routes/auth.js`).

Mongoose collections are lists of records, object ids are `Nat`,
timestamps are `Int` (milliseconds), and random values produced by
`crypto.randomBytes` are passed in as explicit freshness parameters.
JavaScript's `undefined` / `null` / value distinction, which the PUT
route relies on, is embedded as the three-state `JsVal`.
-/

namespace TaskFlow

/-- Roles, from the User schema enum `['admin', 'manager', 'member']`. -/
inductive Role
  | admin
  | manager
  | member
deriving DecidableEq, Repr

/-- Task statuses, from the Task schema enum
`['todo', 'in_progress', 'completed', 'expired']`. -/
inductive TStatus
  | todo
  | inProgress
  | completed
  | expired
deriving DecidableEq, Repr

/-- Task priorities, from the Task schema enum `['low', 'medium', 'high']`. -/
inductive Priority
  | low
  | medium
  | high
deriving DecidableEq, Repr

/-- Task categories, from the Task schema enum
`['bug', 'feature', 'improvement', 'documentation', 'other']`. -/
inductive Category
  | bug
  | feature
  | improvement
  | documentation
  | other
deriving DecidableEq, Repr

/-- Invitation statuses, from the Invitation schema enum
`['pending', 'accepted', 'expired']`. -/
inductive InvStatus
  | pending
  | accepted
  | expired
deriving DecidableEq, Repr

/-- A task document (Task schema plus `timestamps`).  `description` is
optional in the schema; `assignedTo` is an optional user reference. -/
structure Task where
  id : Nat
  title : String
  description : Option String
  status : TStatus
  priority : Priority
  category : Category
  dueDate : Int
  assignedTo : Option Nat
  createdBy : Nat
  organizationId : Nat
  createdAt : Int
deriving DecidableEq, Repr

/-- A user document (User schema).  `email` is stored lowercased
(`lowercase: true`); `password` holds the bcrypt hash. -/
structure User where
  id : Nat
  name : String
  email : String
  password : String
  role : Role
  organizationId : Nat
  createdAt : Int
deriving DecidableEq, Repr

/-- An organization document (Organization schema). -/
structure Organization where
  id : Nat
  name : String
  code : String
  description : Option String
  theme : String
deriving DecidableEq, Repr

/-- An invitation document (Invitation schema).  `email` is stored
lowercased; `token` is generated by the pre-save hook. -/
structure Invitation where
  id : Nat
  email : String
  role : Role
  organizationId : Nat
  token : String
  status : InvStatus
  expiresAt : Int
deriving DecidableEq, Repr

/-- The persistent store: the four Mongoose collections. -/
structure State where
  orgs : List Organization
  users : List User
  invitations : List Invitation
  tasks : List Task
deriving DecidableEq, Repr

/-! ## Expiration sweep — `checkExpiredTasks` (taskService.js lines 4–27)

The service issues one bulk conditional update:
`Task.updateMany({dueDate: {$lt: now}, status: {$in: ['todo','in_progress']}},
{$set: {status: 'expired'}})` and returns `result.modifiedCount`. -/

/-- The `updateMany` filter: due date strictly before `now` and status
`todo` or `in_progress`. -/
def overdueActive (now : Int) (t : Task) : Bool :=
  t.dueDate < now && (t.status = TStatus.todo || t.status = TStatus.inProgress)

/-- The effect of the bulk update on a single document: set
`status := expired` when the filter matches, else leave the document. -/
def expireStep (now : Int) (t : Task) : Task :=
  if overdueActive now t then { t with status := TStatus.expired } else t

/-- `checkExpiredTasks`: apply the bulk conditional update to the task
collection and report the modified count (the number of matched rows —
every matched row changes status, so matched = modified here). -/
def checkExpiredTasks (now : Int) (tasks : List Task) : List Task × Nat :=
  (tasks.map (expireStep now), tasks.countP (overdueActive now))

/-! ## Task routes — `src/server/routes/tasks.js`

All task routes run the `authenticate` middleware first; the embedded
operations therefore take the resolved caller (`User`) as an argument.
`PUT /:id`, `DELETE /:id` and `POST /` additionally run
`isManagerOrAdmin` before the handler body. -/

/-- Error responses produced by the task and member routes:
`notFound` is the 404 branch, `roleDenied` the 403 middleware / in-handler
denial, `invalidRole` the 400 'Invalid role' branch of the role-update
route. -/
inductive ApiErr
  | notFound
  | roleDenied
  | invalidRole
deriving DecidableEq, Repr

/-- `isManagerOrAdmin` middleware (middleware/auth.js lines 44–49). -/
def isManagerOrAdmin (r : Role) : Bool :=
  r = Role.manager || r = Role.admin

/-- `Task.findOne({_id: tid, organizationId: oid})`. -/
def findTask (tasks : List Task) (tid oid : Nat) : Option Task :=
  tasks.find? (fun t => t.id = tid && t.organizationId = oid)

/-- `GET /:id` (tasks.js lines 99–117): tenant-scoped lookup; missing or
cross-tenant task yields the 404 'Task not found'. -/
def getTask (s : State) (caller : User) (tid : Nat) : Except ApiErr Task :=
  match findTask s.tasks tid caller.organizationId with
  | none => Except.error ApiErr.notFound
  | some t => Except.ok t

/-- JavaScript's three-way `undefined` / `null` / value distinction for a
request-body field, which the PUT handler's `!== undefined` and `||`
tests depend on. -/
inductive JsVal (α : Type)
  | undef
  | null
  | val (a : α)
deriving DecidableEq, Repr

/-- The body of a `PUT /:id` request, destructured as
`{title, description, category, priority, dueDate, assignedTo}`
(tasks.js line 152).  Fields absent from the JSON body are `undef`. -/
structure UpdateRequest where
  title : JsVal String
  description : JsVal String
  category : JsVal Category
  priority : JsVal Priority
  dueDate : JsVal Int
  assignedTo : JsVal Nat
deriving DecidableEq, Repr

/-- The field-merge logic of `PUT /:id` (tasks.js lines 165–170):
`title || task.title` (falsy — absent, null or empty — keeps the old
value), `description !== undefined ? description : task.description`
(null and the empty string overwrite), likewise for `assignedTo`, and
`x || task.x` for category, priority and dueDate. -/
def applyUpdate (r : UpdateRequest) (t : Task) : Task :=
  { t with
    title := match r.title with
      | JsVal.val s => if s = "" then t.title else s
      | _ => t.title
    description := match r.description with
      | JsVal.undef => t.description
      | JsVal.null => none
      | JsVal.val s => some s
    category := match r.category with
      | JsVal.val c => c
      | _ => t.category
    priority := match r.priority with
      | JsVal.val p => p
      | _ => t.priority
    dueDate := match r.dueDate with
      | JsVal.val d => d
      | _ => t.dueDate
    assignedTo := match r.assignedTo with
      | JsVal.undef => t.assignedTo
      | JsVal.null => none
      | JsVal.val a => some a }

/-- Write a saved task document back into the collection (Mongoose
`save` persists by `_id`). -/
def saveTask (tasks : List Task) (t' : Task) : List Task :=
  tasks.map (fun x => if x.id = t'.id then t' else x)

/-- `PUT /:id` (tasks.js lines 150–184): `isManagerOrAdmin` middleware,
then tenant-scoped lookup, then the field merge of `applyUpdate`. -/
def putTask (s : State) (caller : User) (tid : Nat) (r : UpdateRequest) :
    Except ApiErr Task × State :=
  if ¬ isManagerOrAdmin caller.role then
    (Except.error ApiErr.roleDenied, s)
  else
    match findTask s.tasks tid caller.organizationId with
    | none => (Except.error ApiErr.notFound, s)
    | some t =>
        let t' := applyUpdate r t
        (Except.ok t', { s with tasks := saveTask s.tasks t' })

/-- `PATCH /:id/status` (tasks.js lines 187–225): tenant-scoped lookup;
then a `member`-role caller is rejected when the task is assigned to
someone else (`task.assignedTo && task.assignedTo !== req.user._id`);
otherwise the status is written verbatim. -/
def patchTaskStatus (s : State) (caller : User) (tid : Nat) (st : TStatus) :
    Except ApiErr Task × State :=
  match findTask s.tasks tid caller.organizationId with
  | none => (Except.error ApiErr.notFound, s)
  | some t =>
      if caller.role = Role.member && t.assignedTo.isSome
          && t.assignedTo ≠ some caller.id then
        (Except.error ApiErr.roleDenied, s)
      else
        let t' := { t with status := st }
        (Except.ok t', { s with tasks := saveTask s.tasks t' })

/-- `deleteOne` on the task collection: remove the first document
matching the filter, reporting `deletedCount`. -/
def deleteFirstTask (p : Task → Bool) : List Task → List Task × Nat
  | [] => ([], 0)
  | t :: ts =>
      if p t then (ts, 1)
      else
        let r := deleteFirstTask p ts
        (t :: r.1, r.2)

/-- `DELETE /:id` (tasks.js lines 228–244): `isManagerOrAdmin`
middleware, then `Task.deleteOne({_id, organizationId})`; a
`deletedCount` of zero yields the 404. -/
def deleteTask (s : State) (caller : User) (tid : Nat) :
    Except ApiErr Unit × State :=
  if ¬ isManagerOrAdmin caller.role then
    (Except.error ApiErr.roleDenied, s)
  else
    let r := deleteFirstTask
      (fun t => t.id = tid && t.organizationId = caller.organizationId) s.tasks
    if r.2 = 0 then (Except.error ApiErr.notFound, s)
    else (Except.ok (), { s with tasks := r.1 })

/-! ## Statistics — `GET /statistics` (tasks.js lines 48–96)

The handler loads the organization's tasks and recomputes every count
from that list.  The JavaScript `byCategory` / `byPriority` dictionaries
are keyed by the enum values; they are embedded as one count per key
(a key absent from the dictionary corresponds to a count of zero). -/

/-- The response object of `GET /statistics`. -/
structure TaskStats where
  total : Nat
  todoCount : Nat
  inProgressCount : Nat
  completedCount : Nat
  expiredCount : Nat
  overdue : Nat
  bugCount : Nat
  featureCount : Nat
  improvementCount : Nat
  documentationCount : Nat
  otherCount : Nat
  lowCount : Nat
  mediumCount : Nat
  highCount : Nat
deriving DecidableEq, Repr

/-- `GET /statistics`: fetch `Task.find({organizationId})`, then compute
each count with `tasks.filter(...).length` / the `forEach` dictionaries. -/
def getStatistics (now : Int) (s : State) (caller : User) : TaskStats :=
  let tasks := s.tasks.filter (fun t => t.organizationId = caller.organizationId)
  { total := tasks.length
    todoCount := (tasks.filter (fun t => t.status = TStatus.todo)).length
    inProgressCount := (tasks.filter (fun t => t.status = TStatus.inProgress)).length
    completedCount := (tasks.filter (fun t => t.status = TStatus.completed)).length
    expiredCount := (tasks.filter (fun t => t.status = TStatus.expired)).length
    overdue := (tasks.filter (fun t =>
      (t.status = TStatus.todo || t.status = TStatus.inProgress)
        && t.dueDate < now)).length
    bugCount := (tasks.filter (fun t => t.category = Category.bug)).length
    featureCount := (tasks.filter (fun t => t.category = Category.feature)).length
    improvementCount := (tasks.filter (fun t => t.category = Category.improvement)).length
    documentationCount := (tasks.filter (fun t => t.category = Category.documentation)).length
    otherCount := (tasks.filter (fun t => t.category = Category.other)).length
    lowCount := (tasks.filter (fun t => t.priority = Priority.low)).length
    mediumCount := (tasks.filter (fun t => t.priority = Priority.medium)).length
    highCount := (tasks.filter (fun t => t.priority = Priority.high)).length }

/-! ## Member routes — organizations router (`GET /members`,
`PATCH /members/:userId/role`)

`GET /members` runs `User.find({organizationId}).select('-password')
.sort({createdAt: -1})`; the role update responds with
`updatedUser.toJSON()`, whose override deletes the `password` key
(User schema methods, Organization.js lines 88–92). -/

/-- A user document as serialized to a response: every schema field
except the `password` hash. -/
structure PublicUser where
  id : Nat
  name : String
  email : String
  role : Role
  organizationId : Nat
  createdAt : Int
deriving DecidableEq, Repr

/-- The `select('-password')` projection / the `toJSON` override: drop
the credential hash, keep everything else. -/
def toPublic (u : User) : PublicUser :=
  { id := u.id, name := u.name, email := u.email, role := u.role
    organizationId := u.organizationId, createdAt := u.createdAt }

/-- Insert into a list sorted by `createdAt` descending
(`sort({createdAt: -1})`). -/
def insertDesc (u : PublicUser) : List PublicUser → List PublicUser
  | [] => [u]
  | v :: vs =>
      if v.createdAt ≤ u.createdAt then u :: v :: vs
      else v :: insertDesc u vs

/-- Sort by `createdAt` descending. -/
def sortDesc : List PublicUser → List PublicUser
  | [] => []
  | u :: us => insertDesc u (sortDesc us)

/-- `GET /members`: organization-scoped user listing, password projected
away, newest first. -/
def getMembers (s : State) (caller : User) : List PublicUser :=
  sortDesc ((s.users.filter
    (fun u => u.organizationId = caller.organizationId)).map toPublic)

/-- `isAdmin` middleware (middleware/auth.js lines 36–41). -/
def isAdmin (r : Role) : Bool :=
  r = Role.admin

/-- The `['admin', 'manager', 'member'].includes(role)` validation of the
role-update route, as a parse of the request's role string. -/
def parseRole : String → Option Role
  | "admin" => some Role.admin
  | "manager" => some Role.manager
  | "member" => some Role.member
  | _ => none

/-- Write a saved user document back into the collection. -/
def saveUser (users : List User) (u' : User) : List User :=
  users.map (fun x => if x.id = u'.id then u' else x)

/-- `PATCH /members/:userId/role`: `isAdmin` middleware, role-string
validation, tenant-scoped user lookup, role write, `toJSON` response. -/
def updateMemberRole (s : State) (caller : User) (uid : Nat) (roleStr : String) :
    Except ApiErr PublicUser × State :=
  if ¬ isAdmin caller.role then
    (Except.error ApiErr.roleDenied, s)
  else
    match parseRole roleStr with
    | none => (Except.error ApiErr.invalidRole, s)
    | some role =>
        match s.users.find?
            (fun u => u.id = uid && u.organizationId = caller.organizationId) with
        | none => (Except.error ApiErr.notFound, s)
        | some u =>
            let u' := { u with role := role }
            (Except.ok (toPublic u'), { s with users := saveUser s.users u' })

/-- Overwrite one user's stored credential hash, leaving every other
field and every other document unchanged (used to state that responses
do not depend on the hash). -/
def setPw (uid : Nat) (pw : String) (u : User) : User :=
  if u.id = uid then { u with password := pw } else u

/-- Overwrite one user's stored credential hash across the collection. -/
def setUserPassword (s : State) (uid : Nat) (pw : String) : State :=
  { s with users := s.users.map (setPw uid pw) }

/-- ASCII lowercasing of one character (the `lowercase: true` setter on
the e-mail paths; addresses here are ASCII). -/
def lowerChar (c : Char) : Char :=
  if c.isUpper then Char.ofNat (c.toNat + 32) else c

/-- ASCII lowercasing of a string, as applied by the schema setter when
storing an e-mail and when casting a query filter on the field, and by
the route-level `toLowerCase()` calls. -/
def toLowerStr (s : String) : String :=
  String.mk (s.data.map lowerChar)

/-! ## Invitation issuance — `POST /` in the invitations router

The handler checks `Invitation.findOne({email, organizationId,
status: 'pending'})` and rejects with the 400 duplicate message when it
hits; otherwise it inserts.  The schema carries
`index({email: 1, organizationId: 1}, {unique: true})` — a unique index
over the whole pair, with no status filter — so the insert itself is
rejected by the store (duplicate-key, surfaced as the catch-all 500)
whenever any invitation for the pair already exists, and likewise for a
colliding token (`index({token: 1})`, `unique: true`). -/

/-- Errors of invitation issuance: the 403 middleware denial, the 400
duplicate message, and the 500 produced when the store's unique index
rejects the insert. -/
inductive InvErr
  | roleDenied
  | duplicateInvitation
  | storeError
deriving DecidableEq, Repr

/-- Milliseconds in 7 days (`7 * 24 * 60 * 60 * 1000`). -/
def sevenDaysMs : Int := 7 * 24 * 60 * 60 * 1000

/-- `POST /` on the invitations router (the create-invitation handler):
`isManagerOrAdmin` middleware, application-level pending check, then the
insert with `expiresAt = now + 7 days` and a fresh random token
(generated by the pre-save hook, passed here as `freshToken`).  The
notification e-mail is fire-and-forget and does not affect the result. -/
def createInvitation (now : Int) (s : State) (caller : User)
    (email : String) (role : Option Role) (freshId : Nat) (freshToken : String) :
    Except InvErr Invitation × State :=
  if ¬ isManagerOrAdmin caller.role then
    (Except.error InvErr.roleDenied, s)
  else
    let e := toLowerStr email
    match s.invitations.find? (fun i =>
        i.email = e && i.organizationId = caller.organizationId
          && i.status = InvStatus.pending) with
    | some _ => (Except.error InvErr.duplicateInvitation, s)
    | none =>
        if s.invitations.any (fun i =>
            i.email = e && i.organizationId = caller.organizationId)
            || s.invitations.any (fun i => i.token = freshToken) then
          (Except.error InvErr.storeError, s)
        else
          let inv : Invitation :=
            { id := freshId, email := e, role := role.getD Role.member
              organizationId := caller.organizationId, token := freshToken
              status := InvStatus.pending, expiresAt := now + sevenDaysMs }
          (Except.ok inv, { s with invitations := s.invitations ++ [inv] })

/-! ## Registration — `POST /register` (`src/server/routes/auth.js`)

The body is destructured as `{name, email, password, organizationName,
joinExisting, inviteToken, organizationCode, role}` (lines 14–23).
`userRole` is initialized to the request's `role` (line 32) and is
reassigned only on the invitation path (`userRole = invitation.role`)
and on the new-organization path (`userRole = 'admin'`); the
organization-code branch leaves it untouched.  On the invitation path
the handler sets `invitation.status = 'accepted'` and saves it (lines
55–56) *before* constructing and saving the new user (lines 87–95); a
user-save failure is caught by the surrounding catch and answered with
the generic 500 (lines 113–116), with no rollback of the invitation.

Mongoose details embedded: the `lowercase: true` setter applies both
when storing an e-mail and when casting a query filter on the field;
`required: true` on a String path rejects the empty string at save;
the schema's `role` default `'member'` applies when the constructor
receives no role; the bcrypt hash is abstracted (the stored `password`
is the digest of the request's password, via an unspecified one-way
function modeled here as the identity on digests). -/

/-- The body of a `POST /register` request. -/
structure RegisterRequest where
  name : String
  email : String
  password : String
  organizationName : Option String
  joinExisting : Bool
  inviteToken : Option String
  organizationCode : Option String
  role : Option Role
deriving DecidableEq, Repr

/-- Error responses of `POST /register`: the five 400 branches and the
catch-all 500 (`storeError`), which is what a failed `newUser.save()`
turns into. -/
inductive RegErr
  | userExists
  | invalidInvitation
  | emailMismatch
  | invalidOrgCode
  | missingJoinInfo
  | missingOrgName
  | storeError
deriving DecidableEq, Repr

/-- Mongoose validation of `newUser.save()`: the `required` String
paths (`name`, `email`, `password`) reject the empty string, and the
unique index on `email` rejects a duplicate. -/
def userSaveOk (users : List User) (u : User) : Bool :=
  u.name ≠ "" && u.email ≠ "" && u.password ≠ ""
    && users.all (fun v => v.email ≠ u.email)

/-- Flip one invitation to `accepted` (the `invitation.save()` of lines
55–56). -/
def acceptInvitation (invs : List Invitation) (iid : Nat) : List Invitation :=
  invs.map (fun i => if i.id = iid then { i with status := InvStatus.accepted } else i)

/-- Outcome of the branch selection of `POST /register` (lines 34–84):
either an error response, or the resolved organization id, the resolved
`userRole`, and the state after the branch's own writes. -/
def registerBranch (now : Int) (s : State) (req : RegisterRequest)
    (freshOrgId : Nat) (freshOrgCode : String) :
    Except RegErr (Nat × Option Role × State) :=
  if req.joinExisting then
    match req.inviteToken with
    | some tok =>
        match s.invitations.find? (fun i =>
            i.token = tok && i.status = InvStatus.pending && now < i.expiresAt) with
        | none => Except.error RegErr.invalidInvitation
        | some inv =>
            if (toLowerStr inv.email) ≠ (toLowerStr req.email) then
              Except.error RegErr.emailMismatch
            else
              Except.ok (inv.organizationId, some inv.role,
                { s with invitations := acceptInvitation s.invitations inv.id })
    | none =>
        match req.organizationCode with
        | some code =>
            match s.orgs.find? (fun o => o.code = code) with
            | none => Except.error RegErr.invalidOrgCode
            | some o => Except.ok (o.id, req.role, s)
        | none => Except.error RegErr.missingJoinInfo
  else
    match req.organizationName with
    | some orgName =>
        if orgName = "" then Except.error RegErr.missingOrgName
        else
          let newOrg : Organization :=
            { id := freshOrgId, name := orgName, code := freshOrgCode
              description := none, theme := "light" }
          Except.ok (freshOrgId, some Role.admin,
            { s with orgs := s.orgs ++ [newOrg] })
    | none => Except.error RegErr.missingOrgName

/-- `POST /register` (auth.js lines 12–117): duplicate-user pre-check,
branch selection (including the branch's writes), then construction and
save of the new user.  On a user-save failure the handler answers 500
while the branch's writes — an accepted invitation or a created
organization — remain persisted. -/
def register (now : Int) (s : State) (req : RegisterRequest)
    (freshUserId freshOrgId : Nat) (freshOrgCode : String) :
    Except RegErr User × State :=
  match s.users.find? (fun u => u.email = (toLowerStr req.email)) with
  | some _ => (Except.error RegErr.userExists, s)
  | none =>
      match registerBranch now s req freshOrgId freshOrgCode with
      | Except.error e => (Except.error e, s)
      | Except.ok (orgId, userRole, s₁) =>
          let newUser : User :=
            { id := freshUserId, name := req.name, email := (toLowerStr req.email)
              password := req.password, role := userRole.getD Role.member
              organizationId := orgId, createdAt := now }
          if userSaveOk s₁.users newUser then
            (Except.ok newUser, { s₁ with users := s₁.users ++ [newUser] })
          else
            (Except.error RegErr.storeError, s₁)

/-! ## Lemmas about the expiration sweep -/

/-- A document already matched once does not match the sweep filter
again: either it now carries status `expired`, or it did not match. -/
theorem overdueActive_expireStep (now : Int) (t : Task) :
    overdueActive now (expireStep now t) = false := by
  cases hov : overdueActive now t with
  | false => simp [expireStep, hov]
  | true =>
      simp only [expireStep, hov, if_true]
      simp [overdueActive]

/-- The per-document sweep effect is idempotent. -/
theorem expireStep_idem (now : Int) (t : Task) :
    expireStep now (expireStep now t) = expireStep now t := by
  cases hov : overdueActive now t with
  | false => simp [expireStep, hov]
  | true =>
      simp only [expireStep, hov, if_true]
      have : overdueActive now { t with status := TStatus.expired } = false := by
        simp [overdueActive]
      simp [this]

/-- C5. After one execution of the expiration sweep, every task whose
due-date is earlier than `now` and whose status was `todo` or
`in_progress` has status `expired` in the resulting collection, and
every task whose status was `completed` or `expired` before the sweep is
returned unchanged, even if its due-date is past. -/
theorem sweep_expires_overdue_and_preserves_terminal (now : Int) (ts : List Task) :
    List.Forall₂ (fun t t' =>
      ((t.dueDate < now ∧ (t.status = TStatus.todo ∨ t.status = TStatus.inProgress)) →
        t'.status = TStatus.expired) ∧
      ((t.status = TStatus.completed ∨ t.status = TStatus.expired) → t' = t))
      ts (checkExpiredTasks now ts).1 := by
  simp only [checkExpiredTasks]
  induction ts with
  | nil => exact List.Forall₂.nil
  | cons t ts ih =>
      refine List.Forall₂.cons ?_ ih
      constructor
      · intro h
        have hov : overdueActive now t = true := by
          simp only [overdueActive, Bool.and_eq_true, Bool.or_eq_true,
            decide_eq_true_eq]
          exact ⟨h.1, h.2⟩
        simp [expireStep, hov]
      · intro h
        have hov : overdueActive now t = false := by
          rcases h with h2 | h2 <;> simp [overdueActive, h2]
        simp [expireStep, hov]

/-- C6. The expiration sweep is idempotent: run a second time on the
collection produced by a first run, at the same clock reading, it
modifies no task and reports a modified count of zero. -/
theorem sweep_idempotent (now : Int) (ts : List Task) :
    checkExpiredTasks now (checkExpiredTasks now ts).1 =
      ((checkExpiredTasks now ts).1, 0) := by
  simp only [checkExpiredTasks, Prod.mk.injEq]
  constructor
  · rw [List.map_map]
    exact List.map_congr_left (fun t _ => expireStep_idem now t)
  · rw [List.countP_eq_zero]
    intro t ht
    rcases List.mem_map.mp ht with ⟨u, _, rfl⟩
    simp [overdueActive_expireStep]

/-! ## Cross-tenant opacity -/

/-- `deleteOne` with a filter no document matches removes nothing and
reports a `deletedCount` of zero. -/
theorem deleteFirstTask_of_none (p : Task → Bool) (ts : List Task)
    (h : ∀ t ∈ ts, p t = false) : deleteFirstTask p ts = (ts, 0) := by
  induction ts with
  | nil => rfl
  | cons t ts ih =>
      have hpt := h t (List.mem_cons_self t ts)
      have ih' := ih (fun x hx => h x (List.mem_cons_of_mem _ hx))
      simp [deleteFirstTask, hpt, ih']

/-- A tenant-scoped lookup misses when no stored task carries both the
requested id and the caller's organization. -/
theorem findTask_eq_none (tasks : List Task) (tid oid : Nat)
    (h : ∀ t ∈ tasks, ¬(t.id = tid ∧ t.organizationId = oid)) :
    findTask tasks tid oid = none := by
  apply List.find?_eq_none.mpr
  intro t ht
  simp only [Bool.and_eq_true, decide_eq_true_eq]
  exact fun hc => h t ht hc

/-- C2 (amended).  For a task `t` outside the caller's organization and
an id `nid` no stored task carries, the read and status-update routes
answer the same `NOT_FOUND` for `t.id` as for `nid`; the full-update and
delete routes answer identically for `t.id` and for `nid` — `NOT_FOUND`
when the caller's role passes the manager/admin gate, and `ROLE_DENIED`
(raised by the gate before any lookup) when it does not — and in every
case the store is left unchanged. -/
theorem crossTenant_opacity (s : State) (U : User) (t : Task) (nid : Nat)
    (r : UpdateRequest) (st : TStatus)
    (ht : t ∈ s.tasks)
    (horg : t.organizationId ≠ U.organizationId)
    (huniq : ∀ t' ∈ s.tasks, t'.id = t.id → t' = t)
    (hnid : ∀ t' ∈ s.tasks, t'.id ≠ nid) :
    getTask s U t.id = Except.error ApiErr.notFound ∧
    getTask s U t.id = getTask s U nid ∧
    patchTaskStatus s U t.id st = (Except.error ApiErr.notFound, s) ∧
    patchTaskStatus s U t.id st = patchTaskStatus s U nid st ∧
    putTask s U t.id r = putTask s U nid r ∧
    (putTask s U t.id r).2 = s ∧
    (isManagerOrAdmin U.role = true →
      (putTask s U t.id r).1 = Except.error ApiErr.notFound) ∧
    (isManagerOrAdmin U.role = false →
      (putTask s U t.id r).1 = Except.error ApiErr.roleDenied) ∧
    deleteTask s U t.id = deleteTask s U nid ∧
    (deleteTask s U t.id).2 = s ∧
    (isManagerOrAdmin U.role = true →
      (deleteTask s U t.id).1 = Except.error ApiErr.notFound) ∧
    (isManagerOrAdmin U.role = false →
      (deleteTask s U t.id).1 = Except.error ApiErr.roleDenied) := by
  have hfindT : findTask s.tasks t.id U.organizationId = none := by
    apply findTask_eq_none
    intro t' ht' hc
    exact horg (by rw [← huniq t' ht' hc.1]; exact hc.2)
  have hfindN : findTask s.tasks nid U.organizationId = none := by
    apply findTask_eq_none
    intro t' ht' hc
    exact hnid t' ht' hc.1
  have hdelT : deleteFirstTask
      (fun x => x.id = t.id && x.organizationId = U.organizationId) s.tasks
        = (s.tasks, 0) := by
    apply deleteFirstTask_of_none
    intro x hx
    by_cases h1 : x.id = t.id
    · have hx2 : x = t := huniq x hx h1
      subst hx2
      simp [horg]
    · simp [h1]
  have hdelN : deleteFirstTask
      (fun x => x.id = nid && x.organizationId = U.organizationId) s.tasks
        = (s.tasks, 0) := by
    apply deleteFirstTask_of_none
    intro x hx
    simp [hnid x hx]
  cases hrole : isManagerOrAdmin U.role with
  | true =>
      refine ⟨?_, ?_, ?_, ?_, ?_, ?_, ?_, ?_, ?_, ?_, ?_, ?_⟩ <;>
        simp [getTask, patchTaskStatus, putTask, deleteTask, hfindT, hfindN,
          hdelT, hdelN, hrole]
  | false =>
      refine ⟨?_, ?_, ?_, ?_, ?_, ?_, ?_, ?_, ?_, ?_, ?_, ?_⟩ <;>
        simp [getTask, patchTaskStatus, putTask, deleteTask, hfindT, hfindN,
          hdelT, hdelN, hrole]

/-- A task stored by organization 2, used to exercise the cross-tenant
paths. -/
def opTask : Task :=
  { id := 1, title := "deploy", description := none, status := TStatus.todo
    priority := Priority.low, category := Category.bug, dueDate := 0
    assignedTo := none, createdBy := 2, organizationId := 2, createdAt := 0 }

/-- A `member`-role caller from organization 1. -/
def opMember : User :=
  { id := 3, name := "Mia", email := "mia@one.test", password := "digest1"
    role := Role.member, organizationId := 1, createdAt := 0 }

/-- A `manager`-role caller from organization 1. -/
def opManager : User :=
  { id := 4, name := "Max", email := "max@one.test", password := "digest2"
    role := Role.manager, organizationId := 1, createdAt := 0 }

/-- A store holding only `opTask`. -/
def opState : State :=
  { orgs := [], users := [opMember, opManager], invitations := []
    tasks := [opTask] }

/-- An update body with every field absent. -/
def opReq : UpdateRequest :=
  { title := JsVal.undef, description := JsVal.undef, category := JsVal.undef
    priority := JsVal.undef, dueDate := JsVal.undef, assignedTo := JsVal.undef }

/-- C2, counterexample.  A `member`-role caller from organization 1
sending a full update for the organization-2 task receives the 403
role denial — not the `NOT_FOUND` the claim asserts for every caller
(the middleware fires before any lookup). -/
theorem crossTenant_opacity_cex :
    (putTask opState opMember 1 opReq).1 = Except.error ApiErr.roleDenied ∧
    (putTask opState opMember 1 opReq).1 ≠ Except.error ApiErr.notFound := by
  refine ⟨rfl, ?_⟩
  intro h
  have h2 : ApiErr.roleDenied = ApiErr.notFound := by
    have h1 : (putTask opState opMember 1 opReq).1
        = Except.error ApiErr.roleDenied := rfl
    rw [h1] at h
    exact Except.error.inj h
  cases h2

/-- C2, witness: the amended theorem applied to the organization-2 task,
a manager caller from organization 1, and the unused id 99. -/
theorem crossTenant_opacity_witness :
    opTask ∈ opState.tasks ∧
    opTask.organizationId ≠ opManager.organizationId ∧
    (∀ t' ∈ opState.tasks, t'.id = opTask.id → t' = opTask) ∧
    (∀ t' ∈ opState.tasks, t'.id ≠ 99) ∧
    getTask opState opManager opTask.id = Except.error ApiErr.notFound ∧
    getTask opState opManager opTask.id = getTask opState opManager 99 :=
  ⟨by decide, by decide, by decide, by decide,
    ((crossTenant_opacity opState opManager opTask 99 opReq TStatus.completed
      (by decide) (by decide) (by decide) (by decide)).1),
    ((crossTenant_opacity opState opManager opTask 99 opReq TStatus.completed
      (by decide) (by decide) (by decide) (by decide)).2.1)⟩

/-! ## Status-change permissions -/

/-- C7.  For a task `t` found in the caller's organization, a status
change by a `member`-role caller is denied with the 403 role error when
`t` is assigned to a different user, and succeeds — writing the
requested status verbatim — when `t` is unassigned or assigned to the
caller; a `manager` or `admin` caller always succeeds. -/
theorem patchStatus_member_rules (s : State) (U : User) (tid : Nat)
    (t : Task) (st : TStatus)
    (hfind : findTask s.tasks tid U.organizationId = some t) :
    ((U.role = Role.member ∧ ∃ v, t.assignedTo = some v ∧ v ≠ U.id) →
      patchTaskStatus s U tid st = (Except.error ApiErr.roleDenied, s)) ∧
    ((U.role = Role.member ∧ (t.assignedTo = none ∨ t.assignedTo = some U.id)) →
      patchTaskStatus s U tid st = (Except.ok { t with status := st },
        { s with tasks := saveTask s.tasks { t with status := st } })) ∧
    ((U.role = Role.manager ∨ U.role = Role.admin) →
      patchTaskStatus s U tid st = (Except.ok { t with status := st },
        { s with tasks := saveTask s.tasks { t with status := st } })) := by
  refine ⟨?_, ?_, ?_⟩
  · rintro ⟨hrole, v, hv, hne⟩
    have h1 : decide (U.role = Role.member) = true := by simp [hrole]
    have h2 : t.assignedTo.isSome = true := by rw [hv]; rfl
    have h3 : decide (t.assignedTo ≠ some U.id) = true := by
      rw [hv]; simp [hne]
    have hguard : (U.role = Role.member && t.assignedTo.isSome
        && t.assignedTo ≠ some U.id) = true := by
      simp only [h1, h2, h3, Bool.and_self]
    simp only [patchTaskStatus]
    rw [hfind]
    dsimp only
    rw [hguard]
    simp
  · rintro ⟨hrole, hassign⟩
    have hguard : (U.role = Role.member && t.assignedTo.isSome
        && t.assignedTo ≠ some U.id) = false := by
      rcases hassign with h0 | h0
      · have h2 : t.assignedTo.isSome = false := by rw [h0]; rfl
        simp [h2]
      · have h3 : decide (t.assignedTo ≠ some U.id) = false := by
          rw [h0]; simp
        simp [h3]
    simp only [patchTaskStatus]
    rw [hfind]
    dsimp only
    rw [hguard]
    simp
  · intro hrole
    have hguard : (U.role = Role.member && t.assignedTo.isSome
        && t.assignedTo ≠ some U.id) = false := by
      have h1 : decide (U.role = Role.member) = false := by
        rcases hrole with h0 | h0 <;> simp [h0]
      simp [h1]
    simp only [patchTaskStatus]
    rw [hfind]
    dsimp only
    rw [hguard]
    simp

/-- A task of organization 1 assigned to user 7. -/
def stTaskAssigned : Task :=
  { id := 21, title := "triage", description := none, status := TStatus.todo
    priority := Priority.high, category := Category.bug, dueDate := 50
    assignedTo := some 7, createdBy := 4, organizationId := 1, createdAt := 0 }

/-- An unassigned task of organization 1. -/
def stTaskFree : Task :=
  { id := 22, title := "docs", description := none, status := TStatus.todo
    priority := Priority.low, category := Category.documentation, dueDate := 50
    assignedTo := none, createdBy := 4, organizationId := 1, createdAt := 0 }

/-- A store holding the two organization-1 tasks. -/
def stState : State :=
  { orgs := [], users := [opMember], invitations := []
    tasks := [stTaskAssigned, stTaskFree] }

/-- C7, witness: the `member` caller `opMember` (id 3) is denied on the
task assigned to user 7 and succeeds on the unassigned task. -/
theorem patchStatus_member_rules_witness :
    findTask stState.tasks 21 opMember.organizationId = some stTaskAssigned ∧
    patchTaskStatus stState opMember 21 TStatus.completed
      = (Except.error ApiErr.roleDenied, stState) ∧
    patchTaskStatus stState opMember 22 TStatus.completed
      = (Except.ok { stTaskFree with status := TStatus.completed },
        { stState with
          tasks := saveTask stState.tasks
            { stTaskFree with status := TStatus.completed } }) :=
  ⟨by decide,
    (patchStatus_member_rules stState opMember 21 stTaskAssigned
      TStatus.completed (by decide)).1 ⟨rfl, 7, rfl, by decide⟩,
    (patchStatus_member_rules stState opMember 22 stTaskFree
      TStatus.completed (by decide)).2.1 ⟨rfl, Or.inl rfl⟩⟩

/-! ## Full-update field semantics -/

/-- C8, counterexample.  No full-update request body can change a task's
status: the handler never copies a status out of the body, so the claim
that the full update may change any field except the organization
reference and the creator fails at the status field. -/
theorem applyUpdate_cannot_change_status :
    ¬ ∃ r : UpdateRequest, (applyUpdate r stTaskFree).status ≠ stTaskFree.status := by
  rintro ⟨r, hr⟩
  exact hr rfl

/-- C8 (amended).  The full update leaves the organization reference,
the creator, the status, the id and the creation time unchanged; every
field absent from the body keeps its prior value; a `null` description
clears the description and a supplied description (the empty string
included) overwrites it; and each of title (to a non-empty value),
category, priority, due-date and assignee (including un-assignment via
`null`) is changeable to any requested value. -/
theorem applyUpdate_semantics (r : UpdateRequest) (t : Task) :
    (applyUpdate r t).organizationId = t.organizationId ∧
    (applyUpdate r t).createdBy = t.createdBy ∧
    (applyUpdate r t).status = t.status ∧
    (applyUpdate r t).id = t.id ∧
    (r.title = JsVal.undef → (applyUpdate r t).title = t.title) ∧
    (r.description = JsVal.undef → (applyUpdate r t).description = t.description) ∧
    (r.category = JsVal.undef → (applyUpdate r t).category = t.category) ∧
    (r.priority = JsVal.undef → (applyUpdate r t).priority = t.priority) ∧
    (r.dueDate = JsVal.undef → (applyUpdate r t).dueDate = t.dueDate) ∧
    (r.assignedTo = JsVal.undef → (applyUpdate r t).assignedTo = t.assignedTo) ∧
    (r.description = JsVal.null → (applyUpdate r t).description = none) ∧
    (∀ d, r.description = JsVal.val d → (applyUpdate r t).description = some d) ∧
    (∀ x, x ≠ "" → r.title = JsVal.val x → (applyUpdate r t).title = x) ∧
    (∀ c, r.category = JsVal.val c → (applyUpdate r t).category = c) ∧
    (∀ p, r.priority = JsVal.val p → (applyUpdate r t).priority = p) ∧
    (∀ d, r.dueDate = JsVal.val d → (applyUpdate r t).dueDate = d) ∧
    (∀ a, r.assignedTo = JsVal.val a → (applyUpdate r t).assignedTo = some a) ∧
    (r.assignedTo = JsVal.null → (applyUpdate r t).assignedTo = none) := by
  refine ⟨rfl, rfl, rfl, rfl, ?_, ?_, ?_, ?_, ?_, ?_, ?_, ?_, ?_, ?_, ?_, ?_, ?_, ?_⟩
  · intro h; simp [applyUpdate, h]
  · intro h; simp [applyUpdate, h]
  · intro h; simp [applyUpdate, h]
  · intro h; simp [applyUpdate, h]
  · intro h; simp [applyUpdate, h]
  · intro h; simp [applyUpdate, h]
  · intro h; simp [applyUpdate, h]
  · intro d h; simp [applyUpdate, h]
  · intro x hx h; simp [applyUpdate, h, hx]
  · intro c h; simp [applyUpdate, h]
  · intro p h; simp [applyUpdate, h]
  · intro d h; simp [applyUpdate, h]
  · intro a h; simp [applyUpdate, h]
  · intro h; simp [applyUpdate, h]

/-- A full-update body: new title, description cleared via `null`, new
priority, new assignee; category and due-date absent. -/
def upReq : UpdateRequest :=
  { title := JsVal.val "triage v2", description := JsVal.null
    category := JsVal.undef, priority := JsVal.val Priority.medium
    dueDate := JsVal.undef, assignedTo := JsVal.val 7 }

/-- C8, witness: the amended theorem applied to `upReq` and the
organization-1 task, with the supplied-field hypotheses discharged. -/
theorem applyUpdate_semantics_witness :
    (applyUpdate upReq stTaskAssigned).status = stTaskAssigned.status ∧
    (applyUpdate upReq stTaskAssigned).description = none ∧
    (applyUpdate upReq stTaskAssigned).title = "triage v2" ∧
    (applyUpdate upReq stTaskAssigned).dueDate = stTaskAssigned.dueDate ∧
    (applyUpdate upReq stTaskAssigned).organizationId = stTaskAssigned.organizationId := by
  obtain ⟨h1, h2, h3, h4, h5, h6, h7, h8, h9, h10, h11, h12, h13, h14,
    h15, h16, h17, h18⟩ := applyUpdate_semantics upReq stTaskAssigned
  exact ⟨h3, h11 rfl, h13 "triage v2" (by decide) rfl, h9 rfl, h1⟩

/-! ## Registration via the organization join-code -/

/-- An organization whose standing join-code is `ACME123`. -/
def regOrg : Organization :=
  { id := 1, name := "Acme", code := "ACME123", description := none
    theme := "light" }

/-- A store holding only `regOrg`. -/
def regStateC1 : State :=
  { orgs := [regOrg], users := [], invitations := [], tasks := [] }

/-- A registration that joins via the join-code and supplies
`role: 'admin'` in the body. -/
def regReqC1 : RegisterRequest :=
  { name := "Eve", email := "eve@x.com", password := "pw"
    organizationName := none, joinExisting := true, inviteToken := none
    organizationCode := some "ACME123", role := some Role.admin }

/-- The user that registration creates for `regReqC1`. -/
def regUserC1 : User :=
  { id := 10, name := "Eve", email := "eve@x.com", password := "pw"
    role := Role.admin, organizationId := 1, createdAt := 0 }

/-- C1, counterexample.  Joining an existing organization by its
join-code while supplying `role: 'admin'` creates the user with role
`admin`: the handler initializes `userRole` from the request body and
the organization-code branch never overwrites it, so the role is not
forced to `member`. -/
theorem register_orgCode_role_cex :
    (register 0 regStateC1 regReqC1 10 99 "ZZ").1 = Except.ok regUserC1 ∧
    regUserC1.role ≠ Role.member := by
  constructor
  · rfl
  · decide

/-- C1 (amended).  Whenever registration succeeds with
`joinExisting: true` and no invitation token (the organization-code
path), the created user's role is exactly the role supplied in the
request body, defaulting to `member` only when the body carries no
role. -/
theorem register_orgCode_role (now : Int) (s : State) (req : RegisterRequest)
    (fuid foid : Nat) (fcode : String) (u : User)
    (hjoin : req.joinExisting = true)
    (htok : req.inviteToken = none)
    (hok : (register now s req fuid foid fcode).1 = Except.ok u) :
    u.role = req.role.getD Role.member := by
  unfold register at hok
  cases hfind : s.users.find? (fun v => v.email = (toLowerStr req.email)) with
  | some w => rw [hfind] at hok; simp at hok
  | none =>
      rw [hfind] at hok
      dsimp only at hok
      cases hoc : req.organizationCode with
      | none =>
          have hbr : registerBranch now s req foid fcode
              = Except.error RegErr.missingJoinInfo := by
            unfold registerBranch
            simp [hjoin, htok, hoc]
          rw [hbr] at hok
          simp at hok
      | some code =>
          cases horg : s.orgs.find? (fun o => o.code = code) with
          | none =>
              have hbr : registerBranch now s req foid fcode
                  = Except.error RegErr.invalidOrgCode := by
                unfold registerBranch
                simp [hjoin, htok, hoc, horg]
              rw [hbr] at hok
              simp at hok
          | some o =>
              have hbr : registerBranch now s req foid fcode
                  = Except.ok (o.id, req.role, s) := by
                unfold registerBranch
                simp [hjoin, htok, hoc, horg]
              rw [hbr] at hok
              dsimp only at hok
              by_cases hsave : userSaveOk s.users
                  { id := fuid, name := req.name, email := (toLowerStr req.email)
                    password := req.password, role := req.role.getD Role.member
                    organizationId := o.id, createdAt := now } = true
              · rw [if_pos hsave] at hok
                have := Except.ok.inj hok
                rw [← this]
              · rw [if_neg hsave] at hok
                simp at hok

/-- C1, witness: the amended theorem applied to the join-code
registration `regReqC1`, whose body supplies `role: 'admin'`. -/
theorem register_orgCode_role_witness :
    regReqC1.joinExisting = true ∧
    regReqC1.inviteToken = none ∧
    (register 0 regStateC1 regReqC1 10 99 "ZZ").1 = Except.ok regUserC1 ∧
    regUserC1.role = regReqC1.role.getD Role.member :=
  ⟨rfl, rfl, rfl,
    register_orgCode_role 0 regStateC1 regReqC1 10 99 "ZZ" regUserC1
      rfl rfl rfl⟩

/-! ## Invitation redemption ordering -/

/-- A pending, unexpired invitation for `bob@x.com` into organization 1. -/
def invC3 : Invitation :=
  { id := 5, email := "bob@x.com", role := Role.manager, organizationId := 1
    token := "tok123", status := InvStatus.pending, expiresAt := 100 }

/-- A store holding `regOrg` and the pending invitation `invC3`. -/
def regStateC3 : State :=
  { orgs := [regOrg], users := [], invitations := [invC3], tasks := [] }

/-- A token redemption whose user record cannot be saved: the password
is empty, so the `required` validation of the User schema rejects the
save. -/
def regReqC3 : RegisterRequest :=
  { name := "Bob", email := "Bob@X.com", password := ""
    organizationName := none, joinExisting := true
    inviteToken := some "tok123", organizationCode := none, role := none }

/-- C3.  Evaluating registration at a redemption whose user save fails
(empty password): the request is answered with the generic 500, no user
is created — yet the invitation has already been flipped to `accepted`,
because the handler saves the flip before attempting the user save.  The
claim (flip only after user creation succeeds) is what the code was
meant to do; the code performs the writes in the opposite order. -/
theorem register_burns_invitation_on_failed_save :
    (register 50 regStateC3 regReqC3 10 99 "Z").1 = Except.error RegErr.storeError ∧
    (register 50 regStateC3 regReqC3 10 99 "Z").2.users = [] ∧
    (register 50 regStateC3 regReqC3 10 99 "Z").2.invitations =
      [{ invC3 with status := InvStatus.accepted }] := by
  refine ⟨rfl, rfl, rfl⟩

/-! ## Invitation issuance and the pair-unique index -/

/-- Whether the store holds a pending invitation for an (e-mail,
organization) pair — the application-level duplicate check's predicate. -/
def pendingFor (s : State) (e : String) (oid : Nat) : Bool :=
  s.invitations.any (fun i =>
    i.email = e && i.organizationId = oid && i.status = InvStatus.pending)

/-- Whether the store holds any invitation for an (e-mail, organization)
pair — the predicate the unique index on `{email, organizationId}`
enforces, with no status filter. -/
def anyFor (s : State) (e : String) (oid : Nat) : Bool :=
  s.invitations.any (fun i => i.email = e && i.organizationId = oid)

/-- A manager of organization 1. -/
def mgrC4 : User :=
  { id := 8, name := "Meg", email := "meg@x.com", password := "digest3"
    role := Role.manager, organizationId := 1, createdAt := 0 }

/-- An invitation for `bob@x.com` into organization 1 that was already
accepted. -/
def invAccepted : Invitation :=
  { id := 6, email := "bob@x.com", role := Role.member, organizationId := 1
    token := "oldtok", status := InvStatus.accepted, expiresAt := 100 }

/-- A store holding only the accepted invitation. -/
def invStateC4 : State :=
  { orgs := [regOrg], users := [mgrC4], invitations := [invAccepted]
    tasks := [] }

/-- C4, counterexample.  With an accepted — hence non-pending —
invitation on file for `(bob@x.com, org 1)`, a fresh issuance for the
same pair does not succeed: the application-level pending check passes,
but the unique index over the whole pair rejects the insert and the
request fails with the generic store error. -/
theorem createInvitation_after_accepted_cex :
    (createInvitation 200 invStateC4 mgrC4 "bob@x.com" (some Role.member)
        9 "newtok").1 = Except.error InvErr.storeError ∧
    ¬ ∃ inv, (createInvitation 200 invStateC4 mgrC4 "bob@x.com"
        (some Role.member) 9 "newtok").1 = Except.ok inv := by
  refine ⟨rfl, ?_⟩
  rintro ⟨inv, h⟩
  exact Except.noConfusion h

/-- C4 (amended).  For a caller passing the manager/admin gate and a
fresh token, issuance answers the 400 duplicate error exactly when a
pending invitation for the (lowercased e-mail, organization) pair
exists; it succeeds exactly when no invitation of any status exists for
the pair; and when only non-pending invitations exist for the pair, the
store-level unique index rejects the insert and the request fails with
the store error. -/
theorem createInvitation_classification (now : Int) (s : State) (caller : User)
    (email : String) (role : Option Role) (fid : Nat) (ftok : String)
    (hrole : isManagerOrAdmin caller.role = true)
    (hftok : ∀ i ∈ s.invitations, i.token ≠ ftok) :
    ((createInvitation now s caller email role fid ftok).1
        = Except.error InvErr.duplicateInvitation
      ↔ pendingFor s (toLowerStr email) caller.organizationId = true) ∧
    ((∃ inv, (createInvitation now s caller email role fid ftok).1
        = Except.ok inv)
      ↔ anyFor s (toLowerStr email) caller.organizationId = false) ∧
    ((createInvitation now s caller email role fid ftok).1
        = Except.error InvErr.storeError
      ↔ (pendingFor s (toLowerStr email) caller.organizationId = false ∧
          anyFor s (toLowerStr email) caller.organizationId = true)) := by
  have hgate : ¬¬(isManagerOrAdmin caller.role = true) := not_not_intro hrole
  have htokany : s.invitations.any (fun i => i.token = ftok) = false := by
    rw [List.any_eq_false]
    intro x hx
    simp [hftok x hx]
  unfold createInvitation
  rw [if_neg hgate]
  dsimp only
  cases hfp : s.invitations.find? (fun i =>
      i.email = toLowerStr email && i.organizationId = caller.organizationId
        && i.status = InvStatus.pending) with
  | some i =>
      have hmem := List.mem_of_find?_eq_some hfp
      have hpred := List.find?_some hfp
      have hpend : pendingFor s (toLowerStr email) caller.organizationId = true := by
        unfold pendingFor
        rw [List.any_eq_true]
        exact ⟨i, hmem, hpred⟩
      have hany : anyFor s (toLowerStr email) caller.organizationId = true := by
        unfold anyFor
        rw [List.any_eq_true]
        refine ⟨i, hmem, ?_⟩
        exact ((Bool.and_eq_true _ _).mp hpred).1
      dsimp only
      refine ⟨?_, ?_, ?_⟩
      · simp [hpend]
      · constructor
        · rintro ⟨inv, h⟩
          exact Except.noConfusion h
        · intro h
          rw [hany] at h
          cases h
      · constructor
        · intro h
          cases h
        · rintro ⟨h1, h2⟩
          rw [hpend] at h1
          cases h1
  | none =>
      have hpend : pendingFor s (toLowerStr email) caller.organizationId = false := by
        unfold pendingFor
        rw [List.any_eq_false]
        exact fun x hx => List.find?_eq_none.mp hfp x hx
      cases hany : s.invitations.any (fun i =>
          i.email = toLowerStr email && i.organizationId = caller.organizationId) with
      | true =>
          dsimp only
          rw [if_pos (Bool.true_or _)]
          have hany2 : anyFor s (toLowerStr email) caller.organizationId = true := hany
          refine ⟨?_, ?_, ?_⟩
          · constructor
            · intro h
              cases h
            · intro h
              rw [hpend] at h
              cases h
          · constructor
            · rintro ⟨inv, h⟩
              exact Except.noConfusion h
            · intro h
              rw [hany2] at h
              cases h
          · simp [hpend, hany2]
      | false =>
          dsimp only
          have hno : ¬((false || s.invitations.any (fun i => i.token = ftok))
              = true) := by
            rw [Bool.false_or, htokany]
            exact Bool.false_ne_true
          rw [if_neg hno]
          have hany2 : anyFor s (toLowerStr email) caller.organizationId = false := hany
          refine ⟨?_, ?_, ?_⟩
          · constructor
            · intro h
              exact Except.noConfusion h
            · intro h
              rw [hpend] at h
              cases h
          · constructor
            · intro _
              exact hany2
            · intro _
              exact ⟨_, rfl⟩
          · constructor
            · intro h
              exact Except.noConfusion h
            · rintro ⟨h1, h2⟩
              rw [hany2] at h2
              cases h2

/-- C4, witness: the amended theorem applied to the accepted-invitation
store — the pending check finds nothing, the pair index finds the
accepted record, and issuance fails with the store error. -/
theorem createInvitation_classification_witness :
    isManagerOrAdmin mgrC4.role = true ∧
    (∀ i ∈ invStateC4.invitations, i.token ≠ "newtok2") ∧
    (createInvitation 200 invStateC4 mgrC4 "bob@x.com" (some Role.member)
        9 "newtok2").1 = Except.error InvErr.storeError :=
  ⟨by decide, by decide,
    ((createInvitation_classification 200 invStateC4 mgrC4 "bob@x.com"
        (some Role.member) 9 "newtok2" (by decide) (by decide)).2.2).mpr
      (by constructor <;> decide)⟩

/-! ## Statistics characterization -/

/-- Counting after an organization filter is one `countP` over the
conjunction. -/
theorem length_filter_filter (p q : Task → Bool) (l : List Task) :
    ((l.filter p).filter q).length = l.countP (fun a => p a && q a) := by
  rw [← List.countP_eq_length_filter, List.countP_filter]
  congr 1
  funext a
  exact Bool.and_comm (q a) (p a)

/-- A caller from organization 1 for the statistics route. -/
def statsCaller : User :=
  { id := 30, name := "Sam", email := "sam@one.test", password := "digest4"
    role := Role.member, organizationId := 1, createdAt := 0 }

/-- A completed organization-1 task assigned to user 1. -/
def statsTask : Task :=
  { id := 41, title := "report", description := none
    status := TStatus.completed, priority := Priority.medium
    category := Category.feature, dueDate := 10, assignedTo := some 1
    createdBy := 30, organizationId := 1, createdAt := 0 }

/-- A store whose one task is assigned to user 1. -/
def statsStateA : State :=
  { orgs := [], users := [statsCaller], invitations := [], tasks := [statsTask] }

/-- The same store with the task reassigned to user 2. -/
def statsStateB : State :=
  { orgs := [], users := [statsCaller], invitations := []
    tasks := [{ statsTask with assignedTo := some 2 }] }

/-- C9, counterexample.  Two live task sets that differ in which user
the completed task is assigned to produce identical statistics
responses: the response carries no per-user task counts and no per-user
completed-task counts (the handler never reads `assignedTo`). -/
theorem statistics_no_per_user_counts :
    getStatistics 100 statsStateA statsCaller
      = getStatistics 100 statsStateB statsCaller ∧
    statsStateA ≠ statsStateB := by
  constructor
  · decide
  · decide

/-- C9 (amended).  On each request the statistics endpoint recomputes,
from the caller organization's live task set: the total count, the four
per-status counts, the overdue count (status `todo` or `in_progress`
and due-date before now), the count per category and the count per
priority — and nothing further (in particular no per-user counts). -/
theorem getStatistics_spec (now : Int) (s : State) (caller : User) :
    (getStatistics now s caller).total
      = s.tasks.countP (fun t => t.organizationId = caller.organizationId) ∧
    (getStatistics now s caller).todoCount
      = s.tasks.countP (fun t =>
          (t.organizationId = caller.organizationId : Bool)
            && t.status = TStatus.todo) ∧
    (getStatistics now s caller).inProgressCount
      = s.tasks.countP (fun t =>
          (t.organizationId = caller.organizationId : Bool)
            && t.status = TStatus.inProgress) ∧
    (getStatistics now s caller).completedCount
      = s.tasks.countP (fun t =>
          (t.organizationId = caller.organizationId : Bool)
            && t.status = TStatus.completed) ∧
    (getStatistics now s caller).expiredCount
      = s.tasks.countP (fun t =>
          (t.organizationId = caller.organizationId : Bool)
            && t.status = TStatus.expired) ∧
    (getStatistics now s caller).overdue
      = s.tasks.countP (fun t =>
          (t.organizationId = caller.organizationId : Bool)
            && ((t.status = TStatus.todo || t.status = TStatus.inProgress)
              && t.dueDate < now)) ∧
    (getStatistics now s caller).bugCount
      = s.tasks.countP (fun t =>
          (t.organizationId = caller.organizationId : Bool)
            && t.category = Category.bug) ∧
    (getStatistics now s caller).featureCount
      = s.tasks.countP (fun t =>
          (t.organizationId = caller.organizationId : Bool)
            && t.category = Category.feature) ∧
    (getStatistics now s caller).improvementCount
      = s.tasks.countP (fun t =>
          (t.organizationId = caller.organizationId : Bool)
            && t.category = Category.improvement) ∧
    (getStatistics now s caller).documentationCount
      = s.tasks.countP (fun t =>
          (t.organizationId = caller.organizationId : Bool)
            && t.category = Category.documentation) ∧
    (getStatistics now s caller).otherCount
      = s.tasks.countP (fun t =>
          (t.organizationId = caller.organizationId : Bool)
            && t.category = Category.other) ∧
    (getStatistics now s caller).lowCount
      = s.tasks.countP (fun t =>
          (t.organizationId = caller.organizationId : Bool)
            && t.priority = Priority.low) ∧
    (getStatistics now s caller).mediumCount
      = s.tasks.countP (fun t =>
          (t.organizationId = caller.organizationId : Bool)
            && t.priority = Priority.medium) ∧
    (getStatistics now s caller).highCount
      = s.tasks.countP (fun t =>
          (t.organizationId = caller.organizationId : Bool)
            && t.priority = Priority.high) := by
  refine ⟨?_, ?_, ?_, ?_, ?_, ?_, ?_, ?_, ?_, ?_, ?_, ?_, ?_, ?_⟩
  · simp only [getStatistics]
    exact (List.countP_eq_length_filter _ _).symm
  all_goals
    simp only [getStatistics]
    exact length_filter_filter _ _ _

/-! ## Credential-hash opacity of the member responses -/

/-- Changing a stored password hash leaves the organization reference
unchanged. -/
theorem setPw_organizationId (uid : Nat) (pw : String) (u : User) :
    (setPw uid pw u).organizationId = u.organizationId := by
  unfold setPw
  by_cases h : u.id = uid <;> simp [h]

/-- The password-free projection does not see a password change. -/
theorem toPublic_setPw (uid : Nat) (pw : String) (u : User) :
    toPublic (setPw uid pw u) = toPublic u := by
  unfold setPw
  by_cases h : u.id = uid <;> simp [toPublic, h]

/-- Nor does it after the role write of the role-update route. -/
theorem toPublic_setRole_setPw (uid : Nat) (pw : String) (r : Role) (u : User) :
    toPublic { setPw uid pw u with role := r }
      = toPublic { u with role := r } := by
  unfold setPw
  by_cases h : u.id = uid <;> simp [toPublic, h]

/-- The organization filter composed with the password-free projection
is unaffected by a password change anywhere in the collection. -/
theorem filter_map_setPw (uid : Nat) (pw : String) (oid : Nat) (l : List User) :
    ((l.map (setPw uid pw)).filter (fun u => u.organizationId = oid)).map toPublic
      = (l.filter (fun u => u.organizationId = oid)).map toPublic := by
  induction l with
  | nil => rfl
  | cons u l ih =>
      simp only [List.map_cons, List.filter_cons, setPw_organizationId]
      by_cases h : u.organizationId = oid
      · simp [h, toPublic_setPw, ih]
      · simp [h, ih]

/-- A lookup whose predicate ignores the password commutes with a
password change. -/
theorem find?_setPw (uid : Nat) (pw : String) (p : User → Bool)
    (hp : ∀ u, p (setPw uid pw u) = p u) (l : List User) :
    (l.map (setPw uid pw)).find? p = (l.find? p).map (setPw uid pw) := by
  induction l with
  | nil => rfl
  | cons u l ih =>
      simp only [List.map_cons]
      by_cases hpu : p u = true
      · rw [List.find?_cons_of_pos _ (by rw [hp]; exact hpu),
          List.find?_cons_of_pos _ hpu]
        rfl
      · rw [List.find?_cons_of_neg _ (by rw [hp]; exact hpu),
          List.find?_cons_of_neg _ hpu, ih]

/-- C10.  Neither the members listing nor the member-role update leaks
the credential hash: for any two stores differing only in one user's
stored password hash, both operations' responses are identical (the
listing projects the password away with `select('-password')`, and the
role update responds through the `toJSON` override that deletes it). -/
theorem member_responses_password_independent (s : State) (uid : Nat)
    (pw : String) (caller : User) (tuid : Nat) (roleStr : String) :
    getMembers (setUserPassword s uid pw) caller = getMembers s caller ∧
    (updateMemberRole (setUserPassword s uid pw) caller tuid roleStr).1
      = (updateMemberRole s caller tuid roleStr).1 := by
  constructor
  · unfold getMembers setUserPassword
    dsimp only
    rw [filter_map_setPw]
  · unfold updateMemberRole setUserPassword
    dsimp only
    by_cases hAdm : isAdmin caller.role = true
    · rw [if_neg (not_not_intro hAdm), if_neg (not_not_intro hAdm)]
      cases hr : parseRole roleStr with
      | none => rfl
      | some role =>
          dsimp only
          rw [find?_setPw uid pw _
            (fun u => by unfold setPw; by_cases h : u.id = uid <;> simp [h])]
          cases hf : s.users.find? (fun u =>
              u.id = tuid && u.organizationId = caller.organizationId) with
          | none => rfl
          | some u =>
              dsimp only [Option.map]
              exact congrArg Except.ok (toPublic_setRole_setPw uid pw role u)
    · rw [if_pos hAdm, if_pos hAdm]

end TaskFlow
